import Mathlib

/-!
# Verification of the directional position-management strategy

Shallow embedding of `scripts/directional_example.py` (class `DirectionalExample`).

Modelling conventions:
* Python/pandas numeric values (floats, `Decimal`) are modelled as exact
  rationals; a decimal literal such as `0.1` is modelled as the rational it
  denotes (`1/10`).
* `pd.NA` cells are modelled as `none` of an `Option` type; the `status`
  column additionally has an `NA` constructor since the code stores `pd.NA`
  in that column.
* Order identifiers returned by `self.buy` / `self.sell` are modelled as
  consecutive natural numbers drawn from a counter kept in the state.
* External collaborators (connector prices, balance, budget checker, the
  stochastic signal) are inputs of a tick, gathered in a `Ctx` structure.
* A Python exception is modelled by an `Option String` error component of
  the result, carrying the state as mutated up to the raise (Python
  mutations performed before an exception persist).
-/

/-- Type `TradeType` of hummingbot (the two sides used by the script). -/
inductive TradeType
| BUY
| SELL
deriving DecidableEq, Repr

/-- Type `OrderType` of hummingbot (the script only uses market orders). -/
inductive OrderType
| MARKET
| LIMIT
deriving DecidableEq, Repr

/-- The `status` column values written by the script: `"ACTIVE"`, `"TP"`,
`"SL"`, `"CANCELED"`, or the missing-value marker `pd.NA`. -/
inductive Status
| ACTIVE
| TP
| SL
| CANCELED
| NA
deriving DecidableEq, Repr

/-- One row of the `signals` DataFrame (columns of line 53 of the script). -/
structure SignalRecord where
  signal : ℚ
  open_order_id : Option Nat
  price : Option ℚ
  amount : Option ℚ
  tp_price : Option ℚ
  sl_price : Option ℚ
  status : Status
  close_order_id : Option Nat
deriving DecidableEq, Repr

/-- Structure `OrderCandidate` as built in `adjust_and_place_order` (lines 157-162). -/
structure OrderCandidate where
  trading_pair : String
  order_type : OrderType
  is_maker : Bool
  order_side : TradeType
  amount : ℚ
  price : ℚ
deriving DecidableEq, Repr

/-- An order actually handed to `self.buy` / `self.sell`. -/
structure PlacedOrder where
  order_side : TradeType
  exchange : String
  trading_pair : String
  amount : ℚ
  order_type : OrderType
  price : ℚ
deriving DecidableEq, Repr

/-- Mutable state of the strategy object: the `signals` DataFrame, the
`last_signal_time` attribute, and the counter generating order ids. -/
structure State where
  signals : List SignalRecord
  last_signal_time : ℚ
  nextOrderId : Nat
deriving DecidableEq, Repr

/-- External inputs of one tick: current timestamp, the sampled signal
(`get_signal`), the raw connector balance of the base asset, the price
query (`get_price trading_pair is_buy`, the single market being fixed),
and the budget checker `adjust_candidate`. -/
structure Ctx where
  current_timestamp : ℚ
  signal : ℚ
  balance : ℚ
  get_price : Bool → ℚ
  adjust : OrderCandidate → OrderCandidate

/-- Constant `BASE` of the script. -/
def BASE : String := "BTC"

/-- Constant `QUOTE` of the script. -/
def QUOTE : String := "USDT"

/-- Constant `TRADING_PAIR`. Modelled from the spec: `combine_to_hb_trading_pair`
(hummingbot utility, not part of the source under verification) joins base
and quote with a dash. -/
def TRADING_PAIR : String := BASE ++ "-" ++ QUOTE

/-- Constant `EXCHANGE` of the script. -/
def EXCHANGE : String := "binance_paper_trade"

/-- Constant `MAX_POSITION` (line 25). -/
def MAX_POSITION : ℚ := 5

/-- Constant `MIN_POSITION` (line 27). -/
def MIN_POSITION : ℚ := 0

/-- Constant `ORDER_SIZE` (line 29). -/
def ORDER_SIZE : ℚ := 1/10

/-- Constant `MIN_ORDER_SIZE` (line 31). -/
def MIN_ORDER_SIZE : ℚ := 1/50

/-- Constant `TIME_BETWEEN_SIGNALS` (line 33). -/
def TIME_BETWEEN_SIGNALS : ℚ := 10

/-- Constant `ENTRY_THRESHOLD` (line 35). -/
def ENTRY_THRESHOLD : ℚ := 3/5

/-- Constant `EXIT_THRESHOLD` (line 37). -/
def EXIT_THRESHOLD : ℚ := 1/5

/-- Constant `TAKE_PROFIT` (line 39). -/
def TAKE_PROFIT : ℚ := 3/100

/-- Constant `STOP_LOSS` (line 41). -/
def STOP_LOSS : ℚ := 1/100

/-- Method `get_balance` (lines 147-152): the connector balance clamped below by 0. -/
def get_balance (raw : ℚ) : ℚ := max raw 0

/-- Round a rational to the nearest integer, ties to even — the rounding
mode of Python `round` on `Decimal` values. -/
def roundHalfEven (x : ℚ) : ℤ :=
  let f := ⌊x⌋
  let r := x - f
  if r < 1/2 then f
  else if 1/2 < r then f + 1
  else if f % 2 = 0 then f else f + 1

/-- Function `round(x, 2)` of Python on exact decimal values: half-even rounding to
two decimal places. -/
def round2 (x : ℚ) : ℚ := (roundHalfEven (100 * x) : ℚ) / 100

/-- Error message modelling the Python `TypeError` raised when a `pd.NA`
cell is used in a boolean context (comparison of a missing exit price). -/
def naCompareError : String := "TypeError: boolean value of NA is ambiguous"

/-- Error message modelling the `AttributeError` raised at line 97:
`DataFrame` objects have no `argmax` attribute/column. -/
def argmaxError : String := "AttributeError: DataFrame object has no attribute argmax"

/-- The `OrderCandidate` built in `adjust_and_place_order` (lines 157-162):
all fields from the parameters except the price, which is always the
`is_buy = True` side of the price query (the best ask). -/
def order_candidate_for (ctx : Ctx) (trading_pair : String) (order_type : OrderType)
    (is_maker : Bool) (order_side : TradeType) (amount : ℚ) : OrderCandidate :=
  { trading_pair := trading_pair
    order_type := order_type
    is_maker := is_maker
    order_side := order_side
    amount := amount
    price := ctx.get_price true }

/-- Result of `adjust_and_place_order`: the returned order id (`pd.NA`
modelled as `none`), the state after any placement, the candidate handed to
the budget checker, and the orders actually placed. -/
structure PlaceResult where
  order_id : Option Nat
  state : State
  candidates : List OrderCandidate
  orders : List PlacedOrder
deriving Repr

/-- Method `adjust_and_place_order` (lines 154-182): build a candidate priced at
the best ask, let the budget checker adjust it, and place the adjusted
order iff the adjusted amount is positive; otherwise return `pd.NA`.
The `price` parameter (default `Decimal("nan")` in the source, modelled as
an `Option`) is never read. -/
def adjust_and_place_order (ctx : Ctx) (st : State) (trading_pair : String)
    (order_type : OrderType) (is_maker : Bool) (order_side : TradeType)
    (amount : ℚ) (price : Option ℚ) : PlaceResult :=
  let order := order_candidate_for ctx trading_pair order_type is_maker order_side amount
  let order_adjusted := ctx.adjust order
  if 0 < order_adjusted.amount then
    match order_side with
    | TradeType.SELL =>
      { order_id := some st.nextOrderId
        state := { st with nextOrderId := st.nextOrderId + 1 }
        candidates := [order]
        orders := [{ order_side := TradeType.SELL, exchange := EXCHANGE,
                     trading_pair := order_adjusted.trading_pair,
                     amount := order_adjusted.amount,
                     order_type := order_adjusted.order_type,
                     price := order_adjusted.price }] }
    | TradeType.BUY =>
      { order_id := some st.nextOrderId
        state := { st with nextOrderId := st.nextOrderId + 1 }
        candidates := [order]
        orders := [{ order_side := TradeType.BUY, exchange := EXCHANGE,
                     trading_pair := order_adjusted.trading_pair,
                     amount := order_adjusted.amount,
                     order_type := order_adjusted.order_type,
                     price := order_adjusted.price }] }
  else
    { order_id := none, state := st, candidates := [order], orders := [] }

/-- Lines 112-114 of `update_active_signals`, acting on one row: the
take-profit branch. `r0` is the snapshot row whose cells are compared, `r`
the current row the write applies to, `nid` the next order id. A missing
`tp_price` raises in the comparison. -/
def rowStepTP (bid : ℚ) (r0 r : SignalRecord) (nid : Nat) :
    SignalRecord × List PlacedOrder × Nat × Option String :=
  match r0.tp_price with
  | none => (r, [], nid, some naCompareError)
  | some t =>
    if bid ≤ t then
      ({ r with status := Status.TP, close_order_id := some nid },
       [{ order_side := TradeType.BUY, exchange := EXCHANGE, trading_pair := TRADING_PAIR,
          amount := ORDER_SIZE, order_type := OrderType.MARKET, price := bid }],
       nid + 1, none)
    else
      (r, [], nid, none)

/-- Lines 115-117 of `update_active_signals`, acting on one row: the
stop-loss branch, analogous to `rowStepTP`. -/
def rowStepSL (ask : ℚ) (r0 r : SignalRecord) (nid : Nat) :
    SignalRecord × List PlacedOrder × Nat × Option String :=
  match r0.sl_price with
  | none => (r, [], nid, some naCompareError)
  | some s =>
    if s ≤ ask then
      ({ r with status := Status.SL, close_order_id := some nid },
       [{ order_side := TradeType.SELL, exchange := EXCHANGE, trading_pair := TRADING_PAIR,
          amount := ORDER_SIZE, order_type := OrderType.MARKET, price := ask }],
       nid + 1, none)
    else
      (r, [], nid, none)

/-- Both sequential branches of the loop body of `update_active_signals`
for one active row: both conditions read the snapshot row, the writes are
applied in order (the stop-loss write can overwrite the take-profit one). -/
def rowStep (bid ask : ℚ) (r0 : SignalRecord) (nid : Nat) :
    SignalRecord × List PlacedOrder × Nat × Option String :=
  match rowStepTP bid r0 r0 nid with
  | (r1, os1, n1, some e) => (r1, os1, n1, some e)
  | (r1, os1, n1, none) =>
    match rowStepSL ask r0 r1 n1 with
    | (r2, os2, n2, e2) => (r2, os1 ++ os2, n2, e2)

/-- The `for idx, signal in active_signals.iterrows()` loop (lines
111-117): rows whose status is not `ACTIVE` are left untouched; an
exception aborts the loop, keeping the updates already applied. -/
def scanRows (bid ask : ℚ) : List SignalRecord → Nat →
    List SignalRecord × List PlacedOrder × Nat × Option String
  | [], nid => ([], [], nid, none)
  | r :: rs, nid =>
    if r.status = Status.ACTIVE then
      match rowStep bid ask r nid with
      | (r1, os, n1, some e) => (r1 :: rs, os, n1, some e)
      | (r1, os, n1, none) =>
        match scanRows bid ask rs n1 with
        | (rs1, os2, n2, e2) => (r1 :: rs1, os ++ os2, n2, e2)
    else
      match scanRows bid ask rs nid with
      | (rs1, os2, n2, e2) => (r :: rs1, os2, n2, e2)

/-- Result of a scan of the active signals: new state, closing orders
placed, and a possible exception. -/
structure ScanResult where
  state : State
  orders : List PlacedOrder
  error : Option String
deriving Repr

/-- Method `update_active_signals` (lines 107-117): fetch best ask
(`get_price True`) and best bid (`get_price False`) and run the loop over
the rows whose status is `ACTIVE`. -/
def update_active_signals (ctx : Ctx) (st : State) : ScanResult :=
  let best_ask := ctx.get_price true
  let best_bid := ctx.get_price false
  match scanRows best_bid best_ask st.signals st.nextOrderId with
  | (rows, os, nid, e) =>
    { state := { st with signals := rows, nextOrderId := nid }, orders := os, error := e }

/-- Result of a tick (or of its decision part): final state, candidates
submitted to the budget checker, orders placed, possible exception. -/
structure TickResult where
  state : State
  candidates : List OrderCandidate
  orders : List PlacedOrder
  error : Option String
deriving Repr

/-- Lines 59-101 of `on_tick`: the signal-decision block. If the
inter-signal interval has elapsed, sample the signal and either try to
increase the position (signal above `ENTRY_THRESHOLD`), try to decrease it
(signal below `EXIT_THRESHOLD` — this branch reaches the
`.argmax()` call of line 97, which raises `AttributeError` after the
reducing order has been placed, so lines 98-99 never execute), or record a
no-action row. -/
def decisionStep (ctx : Ctx) (st : State) : TickResult :=
  if st.last_signal_time < ctx.current_timestamp - TIME_BETWEEN_SIGNALS then
    let st1 : State := { st with last_signal_time := ctx.current_timestamp }
    let signal := ctx.signal
    let amount_base := get_balance ctx.balance
    if ENTRY_THRESHOLD < signal then
      if amount_base < MAX_POSITION ∧ MIN_ORDER_SIZE < MAX_POSITION - amount_base then
        let amount_to_buy := min ORDER_SIZE (MAX_POSITION - amount_base)
        let pr := adjust_and_place_order ctx st1 TRADING_PAIR OrderType.MARKET true
          TradeType.BUY amount_to_buy none
        { state := { pr.state with signals := pr.state.signals ++
            [{ signal := signal, open_order_id := pr.order_id, price := none, amount := none,
               tp_price := some 0, sl_price := some 0, status := Status.ACTIVE,
               close_order_id := none }] }
          candidates := pr.candidates, orders := pr.orders, error := none }
      else
        { state := st1, candidates := [], orders := [], error := none }
    else if signal < EXIT_THRESHOLD then
      if MIN_POSITION < amount_base ∧ MIN_ORDER_SIZE < amount_base - MIN_POSITION then
        let amount_to_sell := min ORDER_SIZE (amount_base - MIN_POSITION)
        let pr := adjust_and_place_order ctx st1 TRADING_PAIR OrderType.MARKET true
          TradeType.SELL amount_to_sell none
        { state := pr.state, candidates := pr.candidates, orders := pr.orders,
          error := some argmaxError }
      else
        { state := st1, candidates := [], orders := [], error := none }
    else
      { state := { st1 with signals := st1.signals ++
          [{ signal := signal, open_order_id := none, price := none, amount := none,
             tp_price := none, sl_price := none, status := Status.NA,
             close_order_id := none }] }
        candidates := [], orders := [], error := none }
  else
    { state := st, candidates := [], orders := [], error := none }

/-- Method `on_tick` (lines 55-101): first `update_active_signals`, then — unless
that raised — the decision block. -/
def on_tick (ctx : Ctx) (st : State) : TickResult :=
  let sr := update_active_signals ctx st
  match sr.error with
  | some e => { state := sr.state, candidates := [], orders := sr.orders, error := some e }
  | none =>
    let dr := decisionStep ctx sr.state
    { state := dr.state, candidates := dr.candidates,
      orders := sr.orders ++ dr.orders, error := dr.error }

/-- Payload of `BuyOrderCompletedEvent` / `SellOrderCompletedEvent`: the fields the
script reads. -/
structure FillEvent where
  order_id : Nat
  base_asset_amount : ℚ
  quote_asset_amount : ℚ
deriving DecidableEq, Repr

/-- Callback `did_complete_buy_order` (lines 184-195): on the rows whose
`open_order_id` equals the event's order id, set fill amount and price
(both rounded to 2 decimals) and the derived exit prices
`round2(price * (1 + TAKE_PROFIT))` and `round2(price * (1 - STOP_LOSS))`. -/
def did_complete_buy_order (e : FillEvent) (st : State) : State :=
  { st with signals := st.signals.map (fun r =>
      if r.open_order_id = some e.order_id then
        { r with
          amount := some (round2 e.base_asset_amount)
          price := some (round2 (e.quote_asset_amount / e.base_asset_amount))
          tp_price := some (round2 (round2 (e.quote_asset_amount / e.base_asset_amount)
            * (1 + TAKE_PROFIT)))
          sl_price := some (round2 (round2 (e.quote_asset_amount / e.base_asset_amount)
            * (1 - STOP_LOSS))) }
      else r) }

/-- Callback `did_complete_sell_order` (lines 197-208): on the rows whose
`open_order_id` equals the event's order id, set fill amount and price and
reset both exit prices to `pd.NA`. -/
def did_complete_sell_order (e : FillEvent) (st : State) : State :=
  { st with signals := st.signals.map (fun r =>
      if r.open_order_id = some e.order_id then
        { r with
          amount := some (round2 e.base_asset_amount)
          price := some (round2 (e.quote_asset_amount / e.base_asset_amount))
          tp_price := none
          sl_price := none }
      else r) }

/-- One observable step of the strategy object: a tick or a fill callback. -/
inductive Step
| tick (ctx : Ctx)
| buyFill (e : FillEvent)
| sellFill (e : FillEvent)

/-- State reached after one step (the tick case keeps the state as mutated
up to a possible exception, matching Python semantics). -/
def applyStep : Step → State → State
  | Step.tick ctx, st => (on_tick ctx st).state
  | Step.buyFill e, st => did_complete_buy_order e st
  | Step.sellFill e, st => did_complete_sell_order e st

set_option maxRecDepth 20000

/-! ## Concrete inputs used by counterexamples and witnesses -/

/-- Empty ledger state. -/
def emptyState : State := { signals := [], last_signal_time := 0, nextOrderId := 0 }

/-- A fill-enriched active record: entered at 100, exit levels 103 and 99. -/
def recActive : SignalRecord :=
  { signal := 7/10
    open_order_id := some 0
    price := some 100
    amount := some (1/10)
    tp_price := some 103
    sl_price := some 99
    status := Status.ACTIVE
    close_order_id := none }

/-- Quotes that trigger neither exit branch of `recActive`: best ask 98
(below the stop-loss level is false since 99 is not at most 98) and best
bid 104 (above the take-profit level, so 104 is not at most 103). -/
def quietPrices : Bool → ℚ := fun is_buy => if is_buy then 98 else 104

/-- Tick context for the position-reducing branch: signal 0 is below
`EXIT_THRESHOLD`, balance 1 makes the reduction eligible. -/
def ctxReduce : Ctx :=
  { current_timestamp := 11
    signal := 0
    balance := 1
    get_price := quietPrices
    adjust := fun c => c }

/-- State holding one quiet active record. -/
def stReduce : State := { signals := [recActive], last_signal_time := 0, nextOrderId := 5 }

/-- Tick context for a buy decision (signal 4/5) whose budget adjustment
rejects the order by zeroing the amount. -/
def ctxRejectBuy : Ctx :=
  { current_timestamp := 11
    signal := 4/5
    balance := 0
    get_price := quietPrices
    adjust := fun c => { c with amount := 0 } }

/-- Symmetric book at 100: both price queries return 100. -/
def prices100 : Bool → ℚ := fun _ => 100

/-- Exit-monitor context with both quotes at 100; the decision block is
gated off (`current_timestamp = 0`). -/
def ctxQuotes100 : Ctx :=
  { current_timestamp := 0
    signal := 0
    balance := 0
    get_price := prices100
    adjust := fun c => c }

/-- An active record whose take-profit condition holds at bid 100
(100 is at most 103) while its stop-loss condition fails at ask 100
(150 is not at most 100). -/
def recTPOnly : SignalRecord := { recActive with tp_price := some 103, sl_price := some 150 }

/-- Ledger with the single record `recTPOnly`. -/
def stTPOnly : State := { signals := [recTPOnly], last_signal_time := 0, nextOrderId := 5 }

/-- An active record created by the buy path and not yet fill-enriched:
exit prices are the creation-time zeroes. -/
def recUnfilled : SignalRecord :=
  { signal := 7/10
    open_order_id := some 1
    price := none
    amount := none
    tp_price := some 0
    sl_price := some 0
    status := Status.ACTIVE
    close_order_id := none }

/-- Ledger with the single record `recUnfilled`. -/
def stUnfilled : State := { signals := [recUnfilled], last_signal_time := 0, nextOrderId := 7 }

/-- An active record for which both exit conditions hold at bid = ask =
100: take-profit level 103 (100 is at most 103) and stop-loss level 90
(90 is at most 100). -/
def recBoth : SignalRecord := { recActive with tp_price := some 103, sl_price := some 90 }

/-- Ledger with the single record `recBoth`. -/
def stBoth : State := { signals := [recBoth], last_signal_time := 0, nextOrderId := 5 }

/-- A record already closed by take-profit. -/
def recClosed : SignalRecord := { recActive with status := Status.TP, close_order_id := some 3 }

/-- Ledger with the single closed record `recClosed`. -/
def stClosed : State := { signals := [recClosed], last_signal_time := 0, nextOrderId := 9 }

/-- A buy fill at entry price 100.01: quote 10001/100 for base 1. -/
def fillOddCent : FillEvent := { order_id := 1, base_asset_amount := 1, quote_asset_amount := 10001/100 }

/-- A buy fill at entry price exactly 100: quote 200 for base 2. -/
def fillAt100 : FillEvent := { order_id := 1, base_asset_amount := 2, quote_asset_amount := 200 }

/-- Exit-monitor context with best bid 100 and best ask 50; the decision
block is gated off. -/
def ctxAsk50 : Ctx :=
  { current_timestamp := 0
    signal := 0
    balance := 0
    get_price := fun is_buy => if is_buy then 50 else 100
    adjust := fun c => c }

/-- Tick context for an eligible buy decision: signal 4/5, empty balance. -/
def ctxBuy : Ctx :=
  { current_timestamp := 11
    signal := 4/5
    balance := 0
    get_price := quietPrices
    adjust := fun c => c }

/-- Tick context for an ineligible buy decision: signal 9/10 but balance
499/100, so the gap to `MAX_POSITION` is 1/100, below `MIN_ORDER_SIZE`. -/
def ctxBuyFull : Ctx := { ctxBuy with signal := 9/10, balance := 499/100 }

/-- Tick context with a neutral signal 2/5, inside the no-action band. -/
def ctxNeutral : Ctx := { ctxBuy with signal := 2/5 }

/-! ## Helper lemmas -/

/-- The candidate handed to the budget checker is the one of
`order_candidate_for`, on every path of `adjust_and_place_order`. -/
theorem adjust_and_place_order_candidates (ctx : Ctx) (st : State) (tpr : String)
    (ot : OrderType) (mk : Bool) (side : TradeType) (amt : ℚ) (p : Option ℚ) :
    (adjust_and_place_order ctx st tpr ot mk side amt p).candidates =
      [order_candidate_for ctx tpr ot mk side amt] := by
  unfold adjust_and_place_order
  dsimp only
  split
  · cases side <;> rfl
  · rfl

/-- Placing an order never modifies the `signals` table. -/
theorem adjust_and_place_order_signals (ctx : Ctx) (st : State) (tpr : String)
    (ot : OrderType) (mk : Bool) (side : TradeType) (amt : ℚ) (p : Option ℚ) :
    (adjust_and_place_order ctx st tpr ot mk side amt p).state.signals = st.signals := by
  unfold adjust_and_place_order
  dsimp only
  split
  · cases side <;> rfl
  · rfl

/-- Orders placed on the rejection path of `adjust_and_place_order`: none. -/
theorem adjust_and_place_order_rejected (ctx : Ctx) (st : State) (tpr : String)
    (ot : OrderType) (mk : Bool) (side : TradeType) (amt : ℚ) (p : Option ℚ)
    (h : (ctx.adjust (order_candidate_for ctx tpr ot mk side amt)).amount ≤ 0) :
    adjust_and_place_order ctx st tpr ot mk side amt p =
      { order_id := none, state := st,
        candidates := [order_candidate_for ctx tpr ot mk side amt], orders := [] } := by
  unfold adjust_and_place_order
  dsimp only
  rw [if_neg (not_lt.mpr h)]

/-- Mapping an idempotent-on-elements function twice equals mapping once. -/
theorem map_self_idem {α : Type} (f : α → α) (hf : ∀ a, f (f a) = f a) :
    ∀ l : List α, (l.map f).map f = l.map f := by
  intro l
  induction l with
  | nil => rfl
  | cons a l ih => simp only [List.map_cons, hf, ih]

/-! ## Claim theorems -/

/-- C10: for every order placed through `adjust_and_place_order`,
regardless of side, the candidate submitted to the budget checker is
priced at the current best ask (the `get_price` query with
`is_buy = true`); the caller-supplied limit-price parameter is never
used (any two values of it give identical results). -/
theorem budget_candidate_priced_at_best_ask (ctx : Ctx) (st : State) (tpr : String)
    (ot : OrderType) (mk : Bool) (side : TradeType) (amt : ℚ) (p p2 : Option ℚ) :
    (adjust_and_place_order ctx st tpr ot mk side amt p).candidates =
      [order_candidate_for ctx tpr ot mk side amt] ∧
    (order_candidate_for ctx tpr ot mk side amt).price = ctx.get_price true ∧
    adjust_and_place_order ctx st tpr ot mk side amt p =
      adjust_and_place_order ctx st tpr ot mk side amt p2 :=
  ⟨adjust_and_place_order_candidates ctx st tpr ot mk side amt p, rfl, rfl⟩

/-- C9: fill notifications are idempotent — applying the same buy-fill or
sell-fill notification a second time leaves every record exactly as it was
after the first application. -/
theorem fill_notifications_idempotent (e : FillEvent) (st : State) :
    did_complete_buy_order e (did_complete_buy_order e st) = did_complete_buy_order e st ∧
    did_complete_sell_order e (did_complete_sell_order e st) = did_complete_sell_order e st := by
  constructor
  · unfold did_complete_buy_order
    dsimp only
    congr 1
    apply map_self_idem
    intro r
    by_cases h : r.open_order_id = some e.order_id <;> simp [h]
  · unfold did_complete_sell_order
    dsimp only
    congr 1
    apply map_self_idem
    intro r
    by_cases h : r.open_order_id = some e.order_id <;> simp [h]

/-- C7: on a decision tick whose signal lies in the closed band between
`EXIT_THRESHOLD` and `ENTRY_THRESHOLD` (endpoints included, both tests
being strict), the decision block emits no candidate and places no order:
it only records an all-NA row and updates `last_signal_time`. -/
theorem sizing_policy_neutral_band_no_action (ctx : Ctx) (st : State)
    (hgate : st.last_signal_time < ctx.current_timestamp - TIME_BETWEEN_SIGNALS)
    (hlo : EXIT_THRESHOLD ≤ ctx.signal) (hhi : ctx.signal ≤ ENTRY_THRESHOLD) :
    decisionStep ctx st =
      { state :=
          { signals := st.signals ++
              [{ signal := ctx.signal
                 open_order_id := none
                 price := none
                 amount := none
                 tp_price := none
                 sl_price := none
                 status := Status.NA
                 close_order_id := none }]
            last_signal_time := ctx.current_timestamp
            nextOrderId := st.nextOrderId }
        candidates := []
        orders := []
        error := none } := by
  unfold decisionStep
  rw [if_pos hgate, if_neg (not_lt.mpr hhi), if_neg (not_lt.mpr hlo)]

/-- C6: on a decision tick with signal above `ENTRY_THRESHOLD`: if the
exposure is below `MAX_POSITION` and the gap exceeds `MIN_ORDER_SIZE`, the
decision block emits a buy candidate for
`min ORDER_SIZE (MAX_POSITION - exposure)`, an amount that is positive, at
most `ORDER_SIZE`, and keeps `exposure + amount` at most `MAX_POSITION`;
if the eligibility test fails, no candidate is emitted and no order is
placed. -/
theorem sizing_policy_buy_amount (ctx : Ctx) (st : State)
    (hgate : st.last_signal_time < ctx.current_timestamp - TIME_BETWEEN_SIGNALS)
    (hsig : ENTRY_THRESHOLD < ctx.signal) :
    ((get_balance ctx.balance < MAX_POSITION ∧
        MIN_ORDER_SIZE < MAX_POSITION - get_balance ctx.balance) →
      (decisionStep ctx st).candidates =
        [order_candidate_for ctx TRADING_PAIR OrderType.MARKET true TradeType.BUY
          (min ORDER_SIZE (MAX_POSITION - get_balance ctx.balance))] ∧
      0 < min ORDER_SIZE (MAX_POSITION - get_balance ctx.balance) ∧
      min ORDER_SIZE (MAX_POSITION - get_balance ctx.balance) ≤ ORDER_SIZE ∧
      get_balance ctx.balance + min ORDER_SIZE (MAX_POSITION - get_balance ctx.balance)
        ≤ MAX_POSITION) ∧
    (¬(get_balance ctx.balance < MAX_POSITION ∧
        MIN_ORDER_SIZE < MAX_POSITION - get_balance ctx.balance) →
      (decisionStep ctx st).candidates = [] ∧ (decisionStep ctx st).orders = []) := by
  constructor
  · intro helig
    refine ⟨?_, ?_, min_le_left _ _, ?_⟩
    · unfold decisionStep
      dsimp only
      rw [if_pos hgate, if_pos hsig, if_pos helig]
      exact adjust_and_place_order_candidates ctx _ TRADING_PAIR OrderType.MARKET true
        TradeType.BUY (min ORDER_SIZE (MAX_POSITION - get_balance ctx.balance)) none
    · have h1 : (0:ℚ) < ORDER_SIZE := by norm_num [ORDER_SIZE]
      have h2 : (0:ℚ) < MAX_POSITION - get_balance ctx.balance := by
        have h3 := helig.1
        linarith
      exact lt_min h1 h2
    · have h4 := min_le_right ORDER_SIZE (MAX_POSITION - get_balance ctx.balance)
      linarith
  · intro hne
    unfold decisionStep
    dsimp only
    rw [if_pos hgate, if_pos hsig, if_neg hne]
    exact ⟨rfl, rfl⟩

/-- Witness for C6: a concrete eligible tick (signal 4/5, empty balance,
amount `min ORDER_SIZE 5 = ORDER_SIZE`) and a concrete ineligible tick
(balance 499/100, gap 1/100 below `MIN_ORDER_SIZE`, no candidate). -/
theorem sizing_policy_buy_amount_witness :
    (emptyState.last_signal_time < ctxBuy.current_timestamp - TIME_BETWEEN_SIGNALS ∧
     ENTRY_THRESHOLD < ctxBuy.signal ∧
     get_balance ctxBuy.balance < MAX_POSITION ∧
     MIN_ORDER_SIZE < MAX_POSITION - get_balance ctxBuy.balance) ∧
    ((decisionStep ctxBuy emptyState).candidates =
        [order_candidate_for ctxBuy TRADING_PAIR OrderType.MARKET true TradeType.BUY
          (min ORDER_SIZE (MAX_POSITION - get_balance ctxBuy.balance))] ∧
      0 < min ORDER_SIZE (MAX_POSITION - get_balance ctxBuy.balance) ∧
      min ORDER_SIZE (MAX_POSITION - get_balance ctxBuy.balance) ≤ ORDER_SIZE ∧
      get_balance ctxBuy.balance + min ORDER_SIZE (MAX_POSITION - get_balance ctxBuy.balance)
        ≤ MAX_POSITION) ∧
    ¬(get_balance ctxBuyFull.balance < MAX_POSITION ∧
        MIN_ORDER_SIZE < MAX_POSITION - get_balance ctxBuyFull.balance) ∧
    ((decisionStep ctxBuyFull emptyState).candidates = [] ∧
      (decisionStep ctxBuyFull emptyState).orders = []) := by
  refine ⟨⟨?_, ?_, ?_, ?_⟩, ?_, ?_, ?_⟩
  · with_unfolding_all decide
  · with_unfolding_all decide
  · with_unfolding_all decide
  · with_unfolding_all decide
  · exact (sizing_policy_buy_amount ctxBuy emptyState (by with_unfolding_all decide)
      (by with_unfolding_all decide)).1
      ⟨by with_unfolding_all decide, by with_unfolding_all decide⟩
  · with_unfolding_all decide
  · exact (sizing_policy_buy_amount ctxBuyFull emptyState (by with_unfolding_all decide)
      (by with_unfolding_all decide)).2 (by with_unfolding_all decide)

/-- Witness for C7: a concrete neutral tick with signal 2/5 appends an
all-NA row, emits no candidate and places no order. -/
theorem sizing_policy_neutral_band_no_action_witness :
    (emptyState.last_signal_time < ctxNeutral.current_timestamp - TIME_BETWEEN_SIGNALS ∧
     EXIT_THRESHOLD ≤ ctxNeutral.signal ∧ ctxNeutral.signal ≤ ENTRY_THRESHOLD) ∧
    decisionStep ctxNeutral emptyState =
      { state :=
          { signals := emptyState.signals ++
              [{ signal := ctxNeutral.signal
                 open_order_id := none
                 price := none
                 amount := none
                 tp_price := none
                 sl_price := none
                 status := Status.NA
                 close_order_id := none }]
            last_signal_time := ctxNeutral.current_timestamp
            nextOrderId := emptyState.nextOrderId }
        candidates := []
        orders := []
        error := none } := by
  refine ⟨⟨?_, ?_, ?_⟩, ?_⟩
  · with_unfolding_all decide
  · with_unfolding_all decide
  · with_unfolding_all decide
  · exact sizing_policy_neutral_band_no_action ctxNeutral emptyState
      (by with_unfolding_all decide) (by with_unfolding_all decide)
      (by with_unfolding_all decide)

/-- C1 (amended): on a decision tick where the buy decision is eligible
but the budget checker zeroes the amount (no order id returned), the buy
path still creates the record with status ACTIVE — not a distinct
no-order status — with `open_order_id` unset, and no order is submitted
downstream. -/
theorem rejected_buy_record_marked_active (ctx : Ctx) (st : State)
    (hgate : st.last_signal_time < ctx.current_timestamp - TIME_BETWEEN_SIGNALS)
    (hsig : ENTRY_THRESHOLD < ctx.signal)
    (helig : get_balance ctx.balance < MAX_POSITION ∧
      MIN_ORDER_SIZE < MAX_POSITION - get_balance ctx.balance)
    (hrej : (ctx.adjust (order_candidate_for ctx TRADING_PAIR OrderType.MARKET true
      TradeType.BUY (min ORDER_SIZE (MAX_POSITION - get_balance ctx.balance)))).amount ≤ 0) :
    (decisionStep ctx st).orders = [] ∧
    (decisionStep ctx st).state.signals = st.signals ++
      [{ signal := ctx.signal
         open_order_id := none
         price := none
         amount := none
         tp_price := some 0
         sl_price := some 0
         status := Status.ACTIVE
         close_order_id := none }] ∧
    (decisionStep ctx st).error = none := by
  unfold decisionStep
  dsimp only
  rw [if_pos hgate, if_pos hsig, if_pos helig,
    adjust_and_place_order_rejected ctx _ TRADING_PAIR OrderType.MARKET true TradeType.BUY
      (min ORDER_SIZE (MAX_POSITION - get_balance ctx.balance)) none hrej]
  exact ⟨rfl, rfl, rfl⟩

/-- Witness for C1 (amended): the concrete rejected buy tick `ctxRejectBuy`
creates an ACTIVE record with no open order id and places nothing. -/
theorem rejected_buy_record_marked_active_witness :
    (emptyState.last_signal_time < ctxRejectBuy.current_timestamp - TIME_BETWEEN_SIGNALS ∧
     ENTRY_THRESHOLD < ctxRejectBuy.signal ∧
     (get_balance ctxRejectBuy.balance < MAX_POSITION ∧
       MIN_ORDER_SIZE < MAX_POSITION - get_balance ctxRejectBuy.balance) ∧
     (ctxRejectBuy.adjust (order_candidate_for ctxRejectBuy TRADING_PAIR OrderType.MARKET true
       TradeType.BUY (min ORDER_SIZE (MAX_POSITION - get_balance ctxRejectBuy.balance)))).amount
       ≤ 0) ∧
    ((decisionStep ctxRejectBuy emptyState).orders = [] ∧
     (decisionStep ctxRejectBuy emptyState).state.signals = emptyState.signals ++
       [{ signal := ctxRejectBuy.signal
          open_order_id := none
          price := none
          amount := none
          tp_price := some 0
          sl_price := some 0
          status := Status.ACTIVE
          close_order_id := none }] ∧
     (decisionStep ctxRejectBuy emptyState).error = none) := by
  refine ⟨⟨?_, ?_, ⟨?_, ?_⟩, ?_⟩, ?_⟩
  · with_unfolding_all decide
  · with_unfolding_all decide
  · with_unfolding_all decide
  · with_unfolding_all decide
  · with_unfolding_all decide
  · exact rejected_buy_record_marked_active ctxRejectBuy emptyState
      (by with_unfolding_all decide) (by with_unfolding_all decide)
      ⟨by with_unfolding_all decide, by with_unfolding_all decide⟩
      (by with_unfolding_all decide)

/-- Counterexample to C1 as stated: on the concrete rejected buy tick the
new record is ACTIVE with `open_order_id` unset (and no order placed), so
ACTIVE is given although no order id was returned; the claimed no-order
status (the code's closest sentinel being the NA marker) does not occur. -/
theorem rejected_buy_none_status_counterexample :
    (on_tick ctxRejectBuy emptyState).state.signals.map SignalRecord.status = [Status.ACTIVE] ∧
    (on_tick ctxRejectBuy emptyState).state.signals.map SignalRecord.open_order_id = [none] ∧
    (on_tick ctxRejectBuy emptyState).orders = [] ∧
    Status.ACTIVE ≠ Status.NA := by
  refine ⟨?_, ?_, ?_, ?_⟩
  · with_unfolding_all decide
  · with_unfolding_all decide
  · with_unfolding_all decide
  · decide

/-- C2 (amended): for an active row with known exit prices, if
`tp_price >= best_bid` the monitor submits a closing BUY at `best_bid` for
`ORDER_SIZE` and writes status TP and the returned id; if
`sl_price <= best_ask` it submits a closing SELL at `best_ask` for
`ORDER_SIZE` and writes status SL and the returned id (sides as in lines
113 and 116 of the source — opposite to the claim). -/
theorem exit_monitor_branch_sides (bid ask t s : ℚ) (r rc : SignalRecord) (nid : Nat)
    (htp : r.tp_price = some t) (hsl : r.sl_price = some s) :
    (bid ≤ t → rowStepTP bid r rc nid =
      ({ rc with status := Status.TP, close_order_id := some nid },
       [{ order_side := TradeType.BUY
          exchange := EXCHANGE
          trading_pair := TRADING_PAIR
          amount := ORDER_SIZE
          order_type := OrderType.MARKET
          price := bid }], nid + 1, none)) ∧
    (s ≤ ask → rowStepSL ask r rc nid =
      ({ rc with status := Status.SL, close_order_id := some nid },
       [{ order_side := TradeType.SELL
          exchange := EXCHANGE
          trading_pair := TRADING_PAIR
          amount := ORDER_SIZE
          order_type := OrderType.MARKET
          price := ask }], nid + 1, none)) := by
  constructor
  · intro hb
    unfold rowStepTP
    rw [htp]
    dsimp only
    rw [if_pos hb]
  · intro ha
    unfold rowStepSL
    rw [hsl]
    dsimp only
    rw [if_pos ha]

/-- Witness for C2 (amended): the record `recBoth` (levels 103/90) at
bid = ask = 100 triggers both branches with the stated orders and writes. -/
theorem exit_monitor_branch_sides_witness :
    (recBoth.tp_price = some 103 ∧ recBoth.sl_price = some 90 ∧
     (100:ℚ) ≤ 103 ∧ (90:ℚ) ≤ 100) ∧
    rowStepTP 100 recBoth recBoth 5 =
      ({ recBoth with status := Status.TP, close_order_id := some 5 },
       [{ order_side := TradeType.BUY
          exchange := EXCHANGE
          trading_pair := TRADING_PAIR
          amount := ORDER_SIZE
          order_type := OrderType.MARKET
          price := 100 }], 6, none) ∧
    rowStepSL 100 recBoth recBoth 5 =
      ({ recBoth with status := Status.SL, close_order_id := some 5 },
       [{ order_side := TradeType.SELL
          exchange := EXCHANGE
          trading_pair := TRADING_PAIR
          amount := ORDER_SIZE
          order_type := OrderType.MARKET
          price := 100 }], 6, none) := by
  refine ⟨⟨?_, ?_, ?_, ?_⟩, ?_, ?_⟩
  · with_unfolding_all decide
  · with_unfolding_all decide
  · decide
  · decide
  · exact (exit_monitor_branch_sides 100 100 103 90 recBoth recBoth 5
      (by with_unfolding_all decide) (by with_unfolding_all decide)).1 (by decide)
  · exact (exit_monitor_branch_sides 100 100 103 90 recBoth recBoth 5
      (by with_unfolding_all decide) (by with_unfolding_all decide)).2 (by decide)

/-- Counterexample to C2 as stated: on a tick where only the take-profit
condition holds (record `recTPOnly`, both quotes 100), the single closing
order submitted is a BUY, not the claimed SELL, and the record is marked
TP. -/
theorem exit_monitor_sell_on_tp_counterexample :
    (update_active_signals ctxQuotes100 stTPOnly).orders.map PlacedOrder.order_side =
      [TradeType.BUY] ∧
    TradeType.BUY ≠ TradeType.SELL ∧
    (update_active_signals ctxQuotes100 stTPOnly).state.signals.map SignalRecord.status =
      [Status.TP] := by
  refine ⟨?_, ?_, ?_⟩
  · with_unfolding_all decide
  · decide
  · with_unfolding_all decide

/-- C3 (amended): an ACTIVE record whose opening fill has not yet been
reported is not skipped — it carries the creation-time exit prices
`tp_price = 0` and `sl_price = 0` (line 81), so on any tick with a
positive best bid and a non-negative best ask the stop-loss branch fires:
a closing sell at the best ask for `ORDER_SIZE` is submitted and the
record's status and `close_order_id` are overwritten with SL and the
returned id. -/
theorem unfilled_active_record_not_skipped (ctx : Ctx) (st : State) (r : SignalRecord)
    (hsig : st.signals = [r]) (hact : r.status = Status.ACTIVE)
    (htp : r.tp_price = some 0) (hsl : r.sl_price = some 0)
    (hbid : 0 < ctx.get_price false) (hask : 0 ≤ ctx.get_price true) :
    update_active_signals ctx st =
      { state :=
          { st with
            signals := [{ r with status := Status.SL, close_order_id := some st.nextOrderId }]
            nextOrderId := st.nextOrderId + 1 }
        orders := [{ order_side := TradeType.SELL
                     exchange := EXCHANGE
                     trading_pair := TRADING_PAIR
                     amount := ORDER_SIZE
                     order_type := OrderType.MARKET
                     price := ctx.get_price true }]
        error := none } := by
  have hrow : rowStep (ctx.get_price false) (ctx.get_price true) r st.nextOrderId =
      ({ r with status := Status.SL, close_order_id := some st.nextOrderId },
       [{ order_side := TradeType.SELL
          exchange := EXCHANGE
          trading_pair := TRADING_PAIR
          amount := ORDER_SIZE
          order_type := OrderType.MARKET
          price := ctx.get_price true }], st.nextOrderId + 1, none) := by
    unfold rowStep rowStepTP rowStepSL
    rw [htp, hsl]
    dsimp only
    rw [if_neg (not_le.mpr hbid)]
    dsimp only
    rw [if_pos hask]
    dsimp only
    rw [htp, hsl, List.nil_append]
  unfold update_active_signals
  dsimp only
  rw [hsig]
  unfold scanRows
  rw [if_pos hact, hrow]
  dsimp only
  unfold scanRows
  dsimp only
  rw [List.append_nil]

/-- Witness for C3 (amended): the concrete not-yet-enriched record
`recUnfilled` (exit prices 0) at bid 100 / ask 50 is closed by the
stop-loss branch with a sell at 50. -/
theorem unfilled_active_record_not_skipped_witness :
    (stUnfilled.signals = [recUnfilled] ∧ recUnfilled.status = Status.ACTIVE ∧
     recUnfilled.tp_price = some 0 ∧ recUnfilled.sl_price = some 0 ∧
     0 < ctxAsk50.get_price false ∧ 0 ≤ ctxAsk50.get_price true) ∧
    update_active_signals ctxAsk50 stUnfilled =
      { state :=
          { stUnfilled with
            signals := [{ recUnfilled with
                          status := Status.SL
                          close_order_id := some stUnfilled.nextOrderId }]
            nextOrderId := stUnfilled.nextOrderId + 1 }
        orders := [{ order_side := TradeType.SELL
                     exchange := EXCHANGE
                     trading_pair := TRADING_PAIR
                     amount := ORDER_SIZE
                     order_type := OrderType.MARKET
                     price := ctxAsk50.get_price true }]
        error := none } := by
  refine ⟨⟨?_, ?_, ?_, ?_, ?_, ?_⟩, ?_⟩
  · with_unfolding_all decide
  · with_unfolding_all decide
  · with_unfolding_all decide
  · with_unfolding_all decide
  · with_unfolding_all decide
  · with_unfolding_all decide
  · exact unfilled_active_record_not_skipped ctxAsk50 stUnfilled recUnfilled
      (by with_unfolding_all decide) (by with_unfolding_all decide)
      (by with_unfolding_all decide) (by with_unfolding_all decide)
      (by with_unfolding_all decide) (by with_unfolding_all decide)

/-- Counterexample to C3 as stated: the not-yet-enriched ACTIVE record is
not skipped on the concrete tick — its status changes to SL, its
`close_order_id` is set, and a closing order is submitted. -/
theorem unfilled_active_record_skip_counterexample :
    (update_active_signals ctxAsk50 stUnfilled).state.signals.map SignalRecord.status =
      [Status.SL] ∧
    Status.SL ≠ Status.ACTIVE ∧
    (update_active_signals ctxAsk50 stUnfilled).state.signals.map SignalRecord.close_order_id =
      [some 7] ∧
    (update_active_signals ctxAsk50 stUnfilled).orders.length = 1 := by
  refine ⟨?_, ?_, ?_, ?_⟩
  · with_unfolding_all decide
  · decide
  · with_unfolding_all decide
  · with_unfolding_all decide

/-- Rows whose status is not ACTIVE pass through the exit-monitor scan
untouched. -/
theorem scanRows_preserves_not_active (bid ask : ℚ) :
    ∀ (rows : List SignalRecord) (nid i : Nat) (r : SignalRecord),
      rows[i]? = some r → r.status ≠ Status.ACTIVE →
      (scanRows bid ask rows nid).1[i]? = some r := by
  intro rows
  induction rows with
  | nil =>
    intro nid i r h _
    simp at h
  | cons r0 rs ih =>
    intro nid i r h hna
    unfold scanRows
    by_cases h0 : r0.status = Status.ACTIVE
    · rw [if_pos h0]
      rcases hrs : rowStep bid ask r0 nid with ⟨r1, os, n1, e⟩
      cases e with
      | some msg =>
        dsimp only
        cases i with
        | zero =>
          rw [List.getElem?_cons_zero] at h
          injection h with h
          subst h
          exact absurd h0 hna
        | succ j =>
          rw [List.getElem?_cons_succ] at h ⊢
          exact h
      | none =>
        dsimp only
        cases i with
        | zero =>
          rw [List.getElem?_cons_zero] at h
          injection h with h
          subst h
          exact absurd h0 hna
        | succ j =>
          rw [List.getElem?_cons_succ] at h ⊢
          exact ih n1 j r h hna
    · rw [if_neg h0]
      dsimp only
      cases i with
      | zero =>
        rw [List.getElem?_cons_zero] at h ⊢
        exact h
      | succ j =>
        rw [List.getElem?_cons_succ] at h ⊢
        exact ih nid j r h hna

/-- Every branch of the decision block only ever appends to the `signals`
table (possibly nothing). -/
theorem decisionStep_signals_append (ctx : Ctx) (st : State) :
    ∃ tail, (decisionStep ctx st).state.signals = st.signals ++ tail := by
  unfold decisionStep
  dsimp only
  split
  · split
    · split
      · simp only [adjust_and_place_order_signals]
        exact ⟨_, rfl⟩
      · exact ⟨[], (List.append_nil _).symm⟩
    · split
      · split
        · simp only [adjust_and_place_order_signals]
          exact ⟨[], (List.append_nil _).symm⟩
        · exact ⟨[], (List.append_nil _).symm⟩
      · exact ⟨_, rfl⟩
  · exact ⟨[], (List.append_nil _).symm⟩

/-- C4 (amended): once a record's status is not ACTIVE at a step boundary,
no subsequent tick or fill callback modifies its status or its
`close_order_id` (within the closing tick itself the row can be written
twice when both exit conditions hold — see the counterexample). -/
theorem closed_record_immutable (step : Step) (st : State) (i : Nat) (r : SignalRecord)
    (hr : st.signals[i]? = some r) (hna : r.status ≠ Status.ACTIVE) :
    ∃ r2, (applyStep step st).signals[i]? = some r2 ∧
      r2.status = r.status ∧ r2.close_order_id = r.close_order_id := by
  cases step with
  | tick ctx =>
    refine ⟨r, ?_, rfl, rfl⟩
    have hscan : (update_active_signals ctx st).state.signals[i]? = some r := by
      unfold update_active_signals
      dsimp only
      exact scanRows_preserves_not_active (ctx.get_price false) (ctx.get_price true)
        st.signals st.nextOrderId i r hr hna
    unfold applyStep on_tick
    dsimp only
    rcases he : (update_active_signals ctx st).error with _ | msg
    · dsimp only
      obtain ⟨tail, ht⟩ := decisionStep_signals_append ctx (update_active_signals ctx st).state
      rw [ht]
      have hlt : i < (update_active_signals ctx st).state.signals.length :=
        (List.getElem?_eq_some.mp hscan).1
      rw [List.getElem?_append_left hlt]
      exact hscan
    · dsimp only
      exact hscan
  | buyFill e =>
    unfold applyStep did_complete_buy_order
    dsimp only
    rw [List.getElem?_map, hr]
    refine ⟨_, rfl, ?_, ?_⟩
    · by_cases h : r.open_order_id = some e.order_id <;> simp [h]
    · by_cases h : r.open_order_id = some e.order_id <;> simp [h]
  | sellFill e =>
    unfold applyStep did_complete_sell_order
    dsimp only
    rw [List.getElem?_map, hr]
    refine ⟨_, rfl, ?_, ?_⟩
    · by_cases h : r.open_order_id = some e.order_id <;> simp [h]
    · by_cases h : r.open_order_id = some e.order_id <;> simp [h]


/-- Witness for C4 (amended): a tick applied to a ledger holding a closed
(TP) record leaves its status and close id unchanged. -/
theorem closed_record_immutable_witness :
    (stClosed.signals[0]? = some recClosed ∧ recClosed.status ≠ Status.ACTIVE) ∧
    ∃ r2, (applyStep (Step.tick ctxQuotes100) stClosed).signals[0]? = some r2 ∧
      r2.status = recClosed.status ∧ r2.close_order_id = recClosed.close_order_id := by
  refine ⟨⟨?_, ?_⟩, ?_⟩
  · with_unfolding_all decide
  · decide
  · exact closed_record_immutable (Step.tick ctxQuotes100) stClosed 0 recClosed
      (by with_unfolding_all decide) (by decide)

/-- Counterexample to C4 as stated: for the record `recBoth` both exit
conditions hold at bid = ask = 100; the take-profit branch (lines 112-114)
sets status TP and `close_order_id` 5, then the stop-loss branch (lines
115-117) overwrites status and close id although `close_order_id` was
already set, and both closing orders are submitted in the same tick. -/
theorem double_trigger_overwrite_counterexample :
    (rowStepTP 100 recBoth recBoth 5).1.status = Status.TP ∧
    (rowStepTP 100 recBoth recBoth 5).1.close_order_id = some 5 ∧
    (rowStep 100 100 recBoth 5).1.status = Status.SL ∧
    (rowStep 100 100 recBoth 5).1.close_order_id = some 6 ∧
    Status.TP ≠ Status.SL ∧
    (rowStep 100 100 recBoth 5).2.1.map PlacedOrder.order_side =
      [TradeType.BUY, TradeType.SELL] ∧
    (update_active_signals ctxQuotes100 stBoth).state.signals.map SignalRecord.status =
      [Status.SL] ∧
    (update_active_signals ctxQuotes100 stBoth).orders.length = 2 := by
  refine ⟨?_, ?_, ?_, ?_, ?_, ?_, ?_, ?_⟩
  · with_unfolding_all decide
  · with_unfolding_all decide
  · with_unfolding_all decide
  · with_unfolding_all decide
  · decide
  · with_unfolding_all decide
  · with_unfolding_all decide
  · with_unfolding_all decide

/-- C5: on the concrete position-reducing tick `ctxReduce` over a ledger
with one active record, the model of line 97 raises the
`AttributeError` after the reducing sell order has been placed: the tick
ends in the error, the active record is never marked CANCELED and no
record receives a close order id. -/
theorem reduce_position_argmax_attribute_error :
    (on_tick ctxReduce stReduce).error = some argmaxError ∧
    (on_tick ctxReduce stReduce).state.signals.map SignalRecord.status = [Status.ACTIVE] ∧
    (on_tick ctxReduce stReduce).state.signals.map SignalRecord.close_order_id = [none] ∧
    (on_tick ctxReduce stReduce).orders.map PlacedOrder.order_side = [TradeType.SELL] := by
  refine ⟨?_, ?_, ?_, ?_⟩
  · with_unfolding_all decide
  · with_unfolding_all decide
  · with_unfolding_all decide
  · with_unfolding_all decide

/-- C8 (amended): a buy fill sets the matched record's entry price to
`round2(quote/base)` and the exit levels to the 2-decimal half-even
roundings of `price * (1 + TAKE_PROFIT)` and `price * (1 - STOP_LOSS)`;
a sell fill resets both exit levels to NA (no exit levels computed). -/
theorem buy_fill_rounded_exit_prices (e : FillEvent) (st : State) (i : Nat) (r : SignalRecord)
    (hr : st.signals[i]? = some r) (hm : r.open_order_id = some e.order_id) :
    (did_complete_buy_order e st).signals[i]? = some
      { r with
        amount := some (round2 e.base_asset_amount)
        price := some (round2 (e.quote_asset_amount / e.base_asset_amount))
        tp_price := some (round2 (round2 (e.quote_asset_amount / e.base_asset_amount)
          * (1 + TAKE_PROFIT)))
        sl_price := some (round2 (round2 (e.quote_asset_amount / e.base_asset_amount)
          * (1 - STOP_LOSS))) } ∧
    (did_complete_sell_order e st).signals[i]? = some
      { r with
        amount := some (round2 e.base_asset_amount)
        price := some (round2 (e.quote_asset_amount / e.base_asset_amount))
        tp_price := none
        sl_price := none } := by
  constructor
  · unfold did_complete_buy_order
    dsimp only
    rw [List.getElem?_map, hr, Option.map_some', if_pos hm]
  · unfold did_complete_sell_order
    dsimp only
    rw [List.getElem?_map, hr, Option.map_some', if_pos hm]

/-- Witness for C8 (amended): the fill of 2 units for 200 quote gives
entry price 100 and take-profit level exactly 103 (the spec example). -/
theorem buy_fill_rounded_exit_prices_witness :
    (stUnfilled.signals[0]? = some recUnfilled ∧
     recUnfilled.open_order_id = some fillAt100.order_id) ∧
    ((did_complete_buy_order fillAt100 stUnfilled).signals[0]? = some
      { recUnfilled with
        amount := some (round2 fillAt100.base_asset_amount)
        price := some (round2 (fillAt100.quote_asset_amount / fillAt100.base_asset_amount))
        tp_price := some (round2 (round2 (fillAt100.quote_asset_amount
          / fillAt100.base_asset_amount) * (1 + TAKE_PROFIT)))
        sl_price := some (round2 (round2 (fillAt100.quote_asset_amount
          / fillAt100.base_asset_amount) * (1 - STOP_LOSS))) } ∧
     (did_complete_sell_order fillAt100 stUnfilled).signals[0]? = some
      { recUnfilled with
        amount := some (round2 fillAt100.base_asset_amount)
        price := some (round2 (fillAt100.quote_asset_amount / fillAt100.base_asset_amount))
        tp_price := none
        sl_price := none }) ∧
    (did_complete_buy_order fillAt100 stUnfilled).signals.map SignalRecord.price =
      [some 100] ∧
    (did_complete_buy_order fillAt100 stUnfilled).signals.map SignalRecord.tp_price =
      [some 103] ∧
    (did_complete_buy_order fillAt100 stUnfilled).signals.map SignalRecord.sl_price =
      [some 99] := by
  refine ⟨⟨?_, ?_⟩, ?_, ?_, ?_, ?_⟩
  · with_unfolding_all decide
  · with_unfolding_all decide
  · exact buy_fill_rounded_exit_prices fillAt100 stUnfilled 0 recUnfilled
      (by with_unfolding_all decide) (by with_unfolding_all decide)
  · with_unfolding_all decide
  · with_unfolding_all decide
  · with_unfolding_all decide


theorem round2_eval_a : round2 (10001/100 : ℚ) = 10001/100 := by
  unfold round2 roundHalfEven
  norm_num [Int.floor_eq_iff]

theorem round2_eval_b : round2 ((10001/100 : ℚ) * (1 + TAKE_PROFIT)) = 10301/100 := by
  unfold round2 roundHalfEven TAKE_PROFIT
  norm_num [Int.floor_eq_iff]

theorem exit_price_exact_product_counterexample :
    (did_complete_buy_order fillOddCent stUnfilled).signals.map SignalRecord.price =
      [some (10001/100)] ∧
    (did_complete_buy_order fillOddCent stUnfilled).signals.map SignalRecord.tp_price =
      [some (10301/100)] ∧
    (10301/100 : ℚ) ≠ (10001/100) * (1 + TAKE_PROFIT) := by
  refine ⟨?_, ?_, ?_⟩
  · simp only [did_complete_buy_order, stUnfilled, recUnfilled, fillOddCent, List.map_cons,
      List.map_nil]
    norm_num [round2_eval_a]
  · simp only [did_complete_buy_order, stUnfilled, recUnfilled, fillOddCent, List.map_cons,
      List.map_nil]
    norm_num [round2_eval_a, round2_eval_b]
  · norm_num [TAKE_PROFIT]
